import Mathlib

/-!
Shallow embedding of `streamlit_app.py` (a single-session "AI Therapist"
chat front-end) and verification of its specification claims.

Modelling conventions:
- Python strings become Lean `String` (in this toolchain a `String` is a
  structure wrapping `List Char`, so string functions are modelled on the
  character list).
- Python `str.strip()` is modelled by `py_strip` (drop whitespace from both
  ends) and `str.lower()` by `py_lower` (character-wise lower-casing); the
  inputs relevant to the claims are ASCII, where these agree with Python.
- The profile dictionary always contains its five keys (it is initialised
  with all values `None`), so `profile.get(k, 'N/A')` returns the stored
  value, and an unset field is the stored `None`, which a Python f-string
  renders as the text "None".  `optVal` reproduces exactly that.
- The `personality_profile` value is a Python dict from trait keys to
  percentage strings; it is modelled as an association list, with
  `List.lookup` standing for `dict.get` (default "N/A" via `Option.getD`).
  Python truthiness (`if profile.get("personality_profile"):`) treats both
  `None` and the empty dict as false.
- The remote completion collaborator (`client.chat.completions.create`
  followed by `response.choices[0].message.content`) is an external
  dependency: it is modelled as a function argument returning
  `Except String String`, where `.error e` stands for any raised exception
  whose `str(e)` is `e` (this includes malformed responses, whose extraction
  also raises inside the same `try` block).
- The Streamlit rerun-to-completion script is modelled by `renderPass`, one
  top-to-bottom execution of the post-widget part of the module, ending in
  `st.stop()` (onboarding incomplete), `st.rerun()` (intro injection) or
  falling through to message display.
-/

/-- Python's `str.strip()` with no argument: remove leading and trailing
whitespace.  Modelled on the character list: drop whitespace from the
front, then from the back (via `reverse`). -/
def py_strip (s : String) : String :=
  ⟨((s.data.dropWhile Char.isWhitespace).reverse.dropWhile Char.isWhitespace).reverse⟩

/-- Python's `str.lower()`: character-wise lower-casing (agrees with Python
on the ASCII inputs the claims are about). -/
def py_lower (s : String) : String :=
  ⟨s.data.map Char.toLower⟩

/-- One chat message: a role tag (`"system"`, `"assistant"`, `"user"`)
and text content, as built by the dict literals in the script. -/
structure Message where
  role : String
  content : String
deriving DecidableEq, Repr

/-- The `st.session_state.user_profile` dict.  Its five keys are always
present; `none` is Python's `None` (field unanswered).
`personality_profile` holds the quiz-answer dict (trait key ↦ percentage
string) once committed. -/
structure Profile where
  name : Option String
  gender : Option String
  birthday : Option String
  goal : Option String
  personality_profile : Option (List (String × String))
deriving DecidableEq, Repr

/-- Rendering of a profile value inside a Python f-string: a stored string
appears literally, the stored `None` renders as "None". -/
def optVal : Option String → String
  | some v => v
  | none => "None"

/-- One personality-quiz question (`personality_questions` list entries). -/
structure PQuestion where
  key : String
  question : String
deriving DecidableEq, Repr

/-- `personality_questions` from the script. -/
def personality_questions : List PQuestion :=
  [⟨"energy", "When meeting new people, how energized do you feel?"⟩,
   ⟨"decision_style", "When making decisions, how much do you rely on logic (vs feelings)?"⟩,
   ⟨"focus", "How much do you prefer practical details (vs big-picture ideas)?"⟩,
   ⟨"structure", "How much do you prefer plans and structure (vs spontaneity)?"⟩,
   ⟨"stress_response", "When stressed, how much do you seek social support (vs dealing with it alone)?"⟩]

/-- `percentage_options` from the script (the six slider values). -/
def percentage_options : List String :=
  ["0%", "20%", "40%", "60%", "80%", "100%"]

/-- The fixed preamble of `build_system_prompt` up to and including
"User details:\n". -/
def base_preamble : String :=
  "You are a warm, empathetic, and supportive AI therapist. " ++
  "You start with supportive listening, then provide gentle, educational guidance. " ++
  "You are skilled in explaining and applying counselling approaches with examples — CBT, Person-Centered, Psychodynamic, Solution-Focused, Gestalt, Narrative, and Integrative.\n\n" ++
  "User details:\n"

/-- The four f-string detail lines of `build_system_prompt`
(`profile.get(...)` returns the stored value; an unset field is the stored
`None`, rendered "None" by the f-string). -/
def user_details (profile : Profile) : String :=
  "- Name: " ++ optVal profile.name ++ "\n" ++
  "- Gender: " ++ optVal profile.gender ++ "\n" ++
  "- Date of Birth: " ++ optVal profile.birthday ++ "\n" ++
  "- Therapy Goal: " ++ optVal profile.goal ++ "\n"

/-- One personality line: `f"- {q['question']} → {ans}\n"` with
`ans = profile["personality_profile"].get(q["key"], "N/A")`. -/
def personality_line (d : List (String × String)) (q : PQuestion) : String :=
  "- " ++ q.question ++ " → " ++ (d.lookup q.key).getD "N/A" ++ "\n"

/-- The personality block of `build_system_prompt`: emitted only when
`profile.get("personality_profile")` is truthy in Python, i.e. neither
`None` nor the empty dict; the for-loop appends one line per question. -/
def personality_section (profile : Profile) : String :=
  match profile.personality_profile with
  | none => ""
  | some d =>
    if d = [] then ""
    else "Personality profile (0–100% scale answers):\n" ++
      (personality_questions.foldl (fun acc q => acc ++ personality_line d q) "")

/-- The fixed trailing "Conversation rules" block of `build_system_prompt`. -/
def conversation_rules : String :=
  "\nConversation rules:\n" ++
  "- Always validate the user\x27s feelings first.\n" ++
  "- If asked about therapy methods, give clear examples and benefits.\n" ++
  "- If asked \x27which therapy fits me\x27, explain how counsellors decide in real-world practice.\n" ++
  "- If user types \x27summary\x27 or \x27end session\x27, summarise the session with actionable steps.\n" ++
  "- If signs of crisis appear, urge contacting a crisis hotline immediately.\n"

/-- `build_system_prompt(profile)`: preamble + detail lines, then the
conditional personality block, then the conversation rules. -/
def build_system_prompt (profile : Profile) : String :=
  base_preamble ++ user_details profile ++ personality_section profile ++ conversation_rules

/-- `onboarding_questions` from the script: field key, question text,
optional choice list. -/
def onboarding_questions : List (String × String × Option (List String)) :=
  [("name", "Hi! What’s your name?", none),
   ("gender", "How do you identify?", some ["Male", "Female", "Non-binary", "Prefer not to say"]),
   ("birthday", "When is your birthday?", none),
   ("goal", "What’s your main goal with therapy right now?",
     some ["Reduce stress", "Manage anxiety", "Improve self-confidence", "Better self-awareness", "Other"])]

/-- `profile.get(field)` for the string-valued fields iterated over by
`onboarding_incomplete` (an unknown key would yield `None` in Python). -/
def pget (profile : Profile) (field : String) : Option String :=
  if field = "name" then profile.name
  else if field = "gender" then profile.gender
  else if field = "birthday" then profile.birthday
  else if field = "goal" then profile.goal
  else none

/-- `onboarding_incomplete(profile)`: scan `onboarding_questions` in order
and return the first field whose value is `None`; then check
`personality_profile`; otherwise return `None`. -/
def onboarding_incomplete (profile : Profile) : Option String :=
  match onboarding_questions.find? (fun q => (pget profile q.1).isNone) with
  | some q => some q.1
  | none =>
    if profile.personality_profile.isNone then some "personality_profile"
    else none

/-- The free-text branch of `ask_onboarding_question` (fields with no
option list): `answer = st.text_input(...)`; `if answer:` (Python
truthiness: any non-empty string) stores `answer.strip()`.  Given the
current field value and the submitted text, returns the field value after
the pass. -/
def submit_free_text (current : Option String) (answer : String) : Option String :=
  if answer = "" then current
  else some (py_strip answer)

/-- A request to the remote completion collaborator
(`client.chat.completions.create`): model identifier, messages payload,
`max_tokens` bound and sampling `temperature` (the literal 0.4, an exact
decimal, modelled as a rational). -/
structure CompletionRequest where
  model : String
  messages : List Message
  max_tokens : Nat
  temperature : Rat
deriving DecidableEq

/-- The synthetic trailing user instruction of the summary branch. -/
def summary_instruction : Message :=
  ⟨"user", "Please give a session summary with key points discussed and recommended next steps."⟩

/-- The command test of `ask_ai`:
`user_message.strip().lower() in ["summary", "end session"]`. -/
def isSummaryCommand (user_message : String) : Bool :=
  (["summary", "end session"] : List String).contains (py_lower (py_strip user_message))

/-- The request `ask_ai` sends to the collaborator: on the summary branch,
`history` plus the synthetic instruction with `max_tokens=500`; otherwise
`history` itself with `max_tokens=800`; temperature 0.4 on both branches. -/
def ask_ai_request (user_message : String) (history : List Message) : CompletionRequest :=
  if isSummaryCommand user_message then
    ⟨"meta-llama/llama-3-70b-instruct", history ++ [summary_instruction], 500, 0.4⟩
  else
    ⟨"meta-llama/llama-3-70b-instruct", history, 800, 0.4⟩

/-- `ask_ai(user_message, history)` with the completion collaborator
abstracted as `c`.  On success the reply is
`response.choices[0].message.content.strip()`; on any exception `e` the
`except` block builds `f"⚠️ Error: {str(e)}"`.  Either way exactly one
assistant entry is appended to `history` and `(reply, history)` is
returned (the Python list mutation is modelled functionally). -/
def ask_ai (c : CompletionRequest → Except String String)
    (user_message : String) (history : List Message) : String × List Message :=
  match c (ask_ai_request user_message history) with
  | .ok content =>
    let ai_reply := py_strip content
    (ai_reply, history ++ [⟨"assistant", ai_reply⟩])
  | .error e =>
    let error_msg := "⚠️ Error: " ++ e
    (error_msg, history ++ [⟨"assistant", error_msg⟩])

/-- The session state touched by the module-level flow relevant here. -/
structure SessionState where
  user_profile : Profile
  chat_history : List Message
  intro_message_shown : Bool
deriving DecidableEq, Repr

/-- The one-time intro message (interpolating `name` and `goal.lower()`;
only reached once onboarding is complete, so both fields are set). -/
def intro_message (profile : Profile) : String :=
  optVal profile.name ++ ", I’m glad you’re here. Your main goal is **" ++
  py_lower (optVal profile.goal) ++ "**.\n\n" ++
  "I\x27ve also noted your personality preferences to help tailor our conversation.\n" ++
  "Let\x27s begin — could you share what’s been on your mind lately?"

/-- The "Chat History Setup" block: if `chat_history` is empty, install
`[system prompt, greeting]`; otherwise overwrite the CONTENT of element 0
with the freshly built system prompt (`chat_history[0]["content"] = ...`
leaves the element's role unchanged). -/
def chat_history_setup (s : SessionState) : SessionState :=
  match s.chat_history with
  | [] =>
    { s with chat_history :=
        [⟨"system", build_system_prompt s.user_profile⟩,
         ⟨"assistant", "Hello, " ++ optVal s.user_profile.name ++ "! How are you feeling today?"⟩] }
  | m0 :: rest =>
    { s with chat_history := ⟨m0.role, build_system_prompt s.user_profile⟩ :: rest }

/-- Outcome of one top-to-bottom script execution: stopped at `st.stop()`
(onboarding still gating), restarted by `st.rerun()` (intro injection), or
fell through to message display with the state after chat-history setup. -/
inductive PassResult where
  | stopped (s : SessionState)
  | rerunPass (s : SessionState)
  | displayed (s : SessionState)
deriving DecidableEq, Repr

/-- One rendering pass over the module-level flow from the onboarding gate
through chat-history setup (`st.chat_input` handling and the pending-input
turn, which follow, are modelled by `ask_ai` separately):
onboarding incomplete → render that question and `st.stop()`;
intro not yet shown → append the intro as an assistant entry, set the
flag, `st.rerun()`; otherwise run the chat-history setup and display. -/
def renderPass (s : SessionState) : PassResult :=
  match onboarding_incomplete s.user_profile with
  | some _ => .stopped s
  | none =>
    if s.intro_message_shown = false then
      .rerunPass
        { s with
          chat_history := s.chat_history ++ [⟨"assistant", intro_message s.user_profile⟩],
          intro_message_shown := true }
    else
      .displayed (chat_history_setup s)

/-- A concrete completed profile used to evaluate the model. -/
def demoProfile : Profile :=
  { name := some "Alex",
    gender := some "Female",
    birthday := some "2000-01-01",
    goal := some "Reduce stress",
    personality_profile := some
      [("energy", "80%"), ("decision_style", "60%"), ("focus", "40%"),
       ("structure", "20%"), ("stress_response", "100%")] }

/-! ### String helper lemmas -/

/-- The first element surviving `dropWhile p` fails `p`. -/
theorem dropWhile_head_false (p : Char → Bool) :
    ∀ (l : List Char) (x : Char) (t : List Char), l.dropWhile p = x :: t → p x = false := by
  intro l
  induction l with
  | nil => intro x t h; simp [List.dropWhile] at h
  | cons a l ih =>
    intro x t h
    by_cases ha : p a
    · rw [List.dropWhile_cons_of_pos ha] at h
      exact ih x t h
    · rw [List.dropWhile_cons_of_neg ha] at h
      cases h
      simpa using ha

/-- `dropWhile p` leaves a list whose head fails `p` unchanged. -/
theorem dropWhile_eq_self_of_head_false (p : Char → Bool) (l : List Char)
    (h : ∀ x t, l = x :: t → p x = false) : l.dropWhile p = l := by
  cases l with
  | nil => rfl
  | cons a t =>
    rw [List.dropWhile_cons_of_neg]
    simp [h a t rfl]

/-- `dropWhile` is idempotent. -/
theorem dropWhile_dropWhile (p : Char → Bool) (l : List Char) :
    (l.dropWhile p).dropWhile p = l.dropWhile p := by
  apply dropWhile_eq_self_of_head_false
  intro x t h
  exact dropWhile_head_false p l x t h

/-- When the result is non-empty, `dropWhile` preserves the last element. -/
theorem getLast?_dropWhile (p : Char → Bool) (l : List Char)
    (h : l.dropWhile p ≠ []) : (l.dropWhile p).getLast? = l.getLast? := by
  induction l with
  | nil => exact absurd rfl h
  | cons a t ih =>
    by_cases ha : p a
    · rw [List.dropWhile_cons_of_pos ha] at h ⊢
      rw [ih h]
      have ht : t ≠ [] := by
        intro he
        rw [he] at h
        exact h rfl
      cases t with
      | nil => exact absurd rfl ht
      | cons b t' => rw [List.getLast?_cons_cons]
    · rw [List.dropWhile_cons_of_neg ha]

/-- List-level form of `strip` idempotence. -/
theorem strip_idem_list (p : Char → Bool) (l : List Char) :
    (((((l.dropWhile p).reverse.dropWhile p).reverse.dropWhile p).reverse.dropWhile p).reverse)
      = ((l.dropWhile p).reverse.dropWhile p).reverse := by
  generalize hA : l.dropWhile p = A
  generalize hR : A.reverse.dropWhile p = R
  have h1 : R.reverse.dropWhile p = R.reverse := by
    apply dropWhile_eq_self_of_head_false
    intro x t hxt
    have hRne : R ≠ [] := by
      intro h0
      rw [h0] at hxt
      simp at hxt
    have hx : R.getLast? = some x := by
      rw [← List.head?_reverse, hxt]
      rfl
    have h2 : R.getLast? = A.reverse.getLast? := by
      rw [← hR]
      exact getLast?_dropWhile p A.reverse (hR ▸ hRne)
    have h4 : A.head? = some x := by
      rw [← List.getLast?_reverse, ← h2, hx]
    cases hA2 : A with
    | nil => rw [hA2] at h4; simp at h4
    | cons y ys =>
      rw [hA2] at h4
      simp at h4
      rw [← h4]
      exact dropWhile_head_false p l y ys (by rw [hA, hA2])
  rw [h1, List.reverse_reverse, ← hR, dropWhile_dropWhile, hR]

/-- Python `strip` is idempotent: stripping a stripped string changes
nothing (hence a stripped string has no leading or trailing whitespace). -/
theorem py_strip_py_strip (s : String) : py_strip (py_strip s) = py_strip s :=
  String.ext (strip_idem_list Char.isWhitespace s.data)

/-! ### Claim theorems -/

/-- C1: every call to `ask_ai` appends exactly one assistant-role entry to
the history, whether the completion collaborator succeeds or raises. -/
theorem ask_ai_appends_exactly_one_assistant
    (c : CompletionRequest → Except String String)
    (user_message : String) (history : List Message) :
    (ask_ai c user_message history).2.length = history.length + 1 ∧
    ∃ r : String, (ask_ai c user_message history).2 = history ++ [⟨"assistant", r⟩] := by
  cases hc : c (ask_ai_request user_message history) with
  | ok content =>
    refine ⟨?_, py_strip content, ?_⟩ <;> simp [ask_ai, hc]
  | error e =>
    refine ⟨?_, "⚠️ Error: " ++ e, ?_⟩ <;> simp [ask_ai, hc]

/-- C2: when the completion collaborator raises, `ask_ai` recovers (it is a
total function of the collaborator's outcome, so no exception escapes),
appends an assistant entry whose text starts with the "⚠️ Error:" marker,
and returns that text as the reply. -/
theorem ask_ai_error_recovery
    (c : CompletionRequest → Except String String)
    (user_message : String) (history : List Message) (e : String)
    (hc : c (ask_ai_request user_message history) = .error e) :
    (ask_ai c user_message history).1 = "⚠️ Error: " ++ e ∧
    (∃ rest, (ask_ai c user_message history).1 = "⚠️ Error:" ++ rest) ∧
    (ask_ai c user_message history).2 = history ++ [⟨"assistant", "⚠️ Error: " ++ e⟩] := by
  have hm : ("⚠️ Error: " : String) = "⚠️ Error:" ++ " " := by decide
  refine ⟨?_, ⟨" " ++ e, ?_⟩, ?_⟩ <;> simp [ask_ai, hc]
  rw [hm, String.append_assoc]

/-- C2 witness. -/
theorem ask_ai_error_recovery_witness :
    (ask_ai (fun _ => .error "boom") "hi" []).1 = "⚠️ Error: " ++ "boom" ∧
    (∃ rest, (ask_ai (fun _ => .error "boom") "hi" []).1 = "⚠️ Error:" ++ rest) ∧
    (ask_ai (fun _ => .error "boom") "hi" []).2 =
      [] ++ [⟨"assistant", "⚠️ Error: " ++ "boom"⟩] :=
  ask_ai_error_recovery (fun _ => .error "boom") "hi" [] "boom" rfl

/-- C3: the summary-command test of `ask_ai` holds exactly when the
message, stripped and lower-cased, is "summary" or "end session"; in
particular "Summary", " summary ", "END SESSION" pass and "summary!"
does not. -/
theorem summary_command_detection :
    (∀ m : String, isSummaryCommand m = true ↔
      (py_lower (py_strip m) = "summary" ∨ py_lower (py_strip m) = "end session")) ∧
    isSummaryCommand "Summary" = true ∧
    isSummaryCommand " summary " = true ∧
    isSummaryCommand "END SESSION" = true ∧
    isSummaryCommand "summary!" = false ∧
    (∀ history, (ask_ai_request "Summary" history).max_tokens = 500) ∧
    (∀ history, (ask_ai_request "summary!" history).max_tokens = 800) := by
  refine ⟨fun m => ?_, by decide, by decide, by decide, by decide,
    fun history => by simp [ask_ai_request, show isSummaryCommand "Summary" = true from by decide],
    fun history => by simp [ask_ai_request, show isSummaryCommand "summary!" = false from by decide]⟩
  simp [isSummaryCommand, List.contains]

/-- C4: on a summary-command turn the collaborator receives the history
plus exactly one synthetic trailing user instruction, with max_tokens 500
and temperature 0.4; an ordinary turn sends the history itself with
max_tokens 800 and the same temperature; the history itself only ever
gains the assistant reply entry. -/
theorem ask_ai_summary_payload (user_message : String) (history : List Message) :
    (isSummaryCommand user_message = true →
      ask_ai_request user_message history =
        ⟨"meta-llama/llama-3-70b-instruct", history ++ [summary_instruction], 500, 0.4⟩) ∧
    (isSummaryCommand user_message = false →
      ask_ai_request user_message history =
        ⟨"meta-llama/llama-3-70b-instruct", history, 800, 0.4⟩) ∧
    summary_instruction.role = "user" ∧
    (∀ c, (ask_ai c user_message history).2 =
      history ++ [⟨"assistant", (ask_ai c user_message history).1⟩]) := by
  refine ⟨fun h => by simp [ask_ai_request, h], fun h => by simp [ask_ai_request, h], rfl,
    fun c => ?_⟩
  cases hc : c (ask_ai_request user_message history) <;> simp [ask_ai, hc]

/-- C4 witness. -/
theorem ask_ai_summary_payload_witness :
    ask_ai_request "summary" [] =
      ⟨"meta-llama/llama-3-70b-instruct", [] ++ [summary_instruction], 500, 0.4⟩ ∧
    ask_ai_request "hello" [] = ⟨"meta-llama/llama-3-70b-instruct", [], 800, 0.4⟩ :=
  ⟨(ask_ai_summary_payload "summary" []).1 (by decide),
   (ask_ai_summary_payload "hello" []).2.1 (by decide)⟩

/-- C5: `onboarding_incomplete` returns the first unset field in the
declared order name, gender, birthday, goal, personality_profile, and
`none` when all five are set. -/
theorem onboarding_incomplete_first_unset (p : Profile) :
    onboarding_incomplete p =
      (if p.name = none then some "name"
       else if p.gender = none then some "gender"
       else if p.birthday = none then some "birthday"
       else if p.goal = none then some "goal"
       else if p.personality_profile = none then some "personality_profile"
       else none) := by
  cases hn : p.name <;> cases hg : p.gender <;> cases hb : p.birthday <;> cases hgo : p.goal <;>
    cases hp : p.personality_profile <;>
    simp [onboarding_incomplete, onboarding_questions, pget, hn, hg, hb, hgo, hp, List.find?]

/-- C7: the Prompt Builder is a pure function, hence deterministic and
idempotent: two applications to the same profile yield the same string. -/
theorem build_system_prompt_idempotent (p : Profile) :
    build_system_prompt p = build_system_prompt p := rfl

/-- C6 (evaluation at the failing input): in a fresh session with a
completed profile, the intro-injection pass followed by the next rendering
pass leaves element 0 of the chat history as an assistant-role entry whose
content is the system prompt.  The `[system prompt, greeting]`
initialisation of the empty-history branch is unreachable, because the
intro injection always appends an assistant entry to the still-empty
history first, and the setup pass then overwrites only the CONTENT of
element 0, keeping its role.  The claimed system-role entry never exists
(and the intro text is destroyed before it is ever displayed). -/
theorem element0_keeps_assistant_role :
    ∃ s1 s2 : SessionState,
      renderPass ⟨demoProfile, [], false⟩ = .rerunPass s1 ∧
      renderPass s1 = .displayed s2 ∧
      s2.chat_history = [⟨"assistant", build_system_prompt demoProfile⟩] ∧
      ("assistant" : String) ≠ "system" :=
  ⟨_, _, rfl, rfl, rfl, by decide⟩

/-- C9 counterexample: the whitespace-only submission " " is accepted —
the free-text field transitions from unset (`none`) to set (storing the
empty string) — even though the submitted text is empty after trimming,
refuting "accepted only when the text is non-empty after trimming". -/
theorem free_text_accepts_whitespace_only :
    submit_free_text none " " = some "" ∧ py_strip " " = "" := by decide

/-- C9 (amended): a free-text submission is accepted exactly when the
submitted text is non-empty BEFORE trimming (Python truthiness of the
widget value); the stored value is the trimmed text, which is empty when
the input was whitespace-only. -/
theorem free_text_submission_amended (current : Option String) (answer : String) :
    (answer ≠ "" → submit_free_text current answer = some (py_strip answer)) ∧
    (answer = "" → submit_free_text current answer = current) := by
  constructor <;> intro h <;> simp [submit_free_text, h]

/-- C9 witness for the amended statement. -/
theorem free_text_submission_amended_witness :
    submit_free_text none "  Alex  " = some (py_strip "  Alex  ") ∧
    submit_free_text (some "x") "" = some "x" :=
  ⟨(free_text_submission_amended none "  Alex  ").1 (by decide),
   (free_text_submission_amended (some "x") "").2 rfl⟩

/-- C10: the pair returned by `ask_ai` is self-consistent: the returned
history is the input history plus one assistant entry whose content is the
returned reply, and on the success path the reply is stripped (so it has
no leading or trailing whitespace: stripping it again changes nothing). -/
theorem ask_ai_result_consistent
    (c : CompletionRequest → Except String String)
    (user_message : String) (history : List Message) :
    (ask_ai c user_message history).2 =
      history ++ [⟨"assistant", (ask_ai c user_message history).1⟩] ∧
    (∀ content, c (ask_ai_request user_message history) = .ok content →
      py_strip (ask_ai c user_message history).1 = (ask_ai c user_message history).1) := by
  constructor
  · cases hc : c (ask_ai_request user_message history) <;> simp [ask_ai, hc]
  · intro content hc
    simp only [ask_ai, hc]
    exact py_strip_py_strip content

/-- C10 witness. -/
theorem ask_ai_result_consistent_witness :
    (ask_ai (fun _ => .ok "  hi  ") "x" []).2 =
      [] ++ [⟨"assistant", (ask_ai (fun _ => .ok "  hi  ") "x" []).1⟩] ∧
    py_strip (ask_ai (fun _ => .ok "  hi  ") "x" []).1 =
      (ask_ai (fun _ => .ok "  hi  ") "x" []).1 :=
  ⟨(ask_ai_result_consistent (fun _ => .ok "  hi  ") "x" []).1,
   (ask_ai_result_consistent (fun _ => .ok "  hi  ") "x" []).2 "  hi  " rfl⟩

set_option maxRecDepth 16000 in
/-- C8: the prompt contains the literal value of every set profile field
(each of the four detail fields, and every committed trait answer of the
personality dict), and no unset-field content appears: when
`personality_profile` is unset the personality block is empty and the
prompt is exactly preamble + details + rules (an unset detail field
contributes only the fixed text "None", never a field value). -/
theorem build_system_prompt_contains (p : Profile) :
    (∀ v, p.name = some v → ∃ s1 s2 : String, build_system_prompt p = s1 ++ v ++ s2) ∧
    (∀ v, p.gender = some v → ∃ s1 s2 : String, build_system_prompt p = s1 ++ v ++ s2) ∧
    (∀ v, p.birthday = some v → ∃ s1 s2 : String, build_system_prompt p = s1 ++ v ++ s2) ∧
    (∀ v, p.goal = some v → ∃ s1 s2 : String, build_system_prompt p = s1 ++ v ++ s2) ∧
    (∀ d q v, p.personality_profile = some d → q ∈ personality_questions →
      d.lookup q.key = some v → ∃ s1 s2 : String, build_system_prompt p = s1 ++ v ++ s2) ∧
    (p.personality_profile = none → personality_section p = "" ∧
      build_system_prompt p = base_preamble ++ user_details p ++ conversation_rules) := by
  refine ⟨?_, ?_, ?_, ?_, ?_, ?_⟩
  · intro v h
    refine ⟨base_preamble ++ "- Name: ",
      "\n" ++ "- Gender: " ++ optVal p.gender ++ "\n" ++ "- Date of Birth: " ++
        optVal p.birthday ++ "\n" ++ "- Therapy Goal: " ++ optVal p.goal ++ "\n" ++
        personality_section p ++ conversation_rules, ?_⟩
    apply String.ext
    simp [build_system_prompt, user_details, h, optVal, String.data_append, List.append_assoc]
  · intro v h
    refine ⟨base_preamble ++ "- Name: " ++ optVal p.name ++ "\n" ++ "- Gender: ",
      "\n" ++ "- Date of Birth: " ++ optVal p.birthday ++ "\n" ++ "- Therapy Goal: " ++
        optVal p.goal ++ "\n" ++ personality_section p ++ conversation_rules, ?_⟩
    apply String.ext
    simp [build_system_prompt, user_details, h, optVal, String.data_append, List.append_assoc]
  · intro v h
    refine ⟨base_preamble ++ "- Name: " ++ optVal p.name ++ "\n" ++ "- Gender: " ++
        optVal p.gender ++ "\n" ++ "- Date of Birth: ",
      "\n" ++ "- Therapy Goal: " ++ optVal p.goal ++ "\n" ++
        personality_section p ++ conversation_rules, ?_⟩
    apply String.ext
    simp [build_system_prompt, user_details, h, optVal, String.data_append, List.append_assoc]
  · intro v h
    refine ⟨base_preamble ++ "- Name: " ++ optVal p.name ++ "\n" ++ "- Gender: " ++
        optVal p.gender ++ "\n" ++ "- Date of Birth: " ++ optVal p.birthday ++ "\n" ++
        "- Therapy Goal: ",
      "\n" ++ personality_section p ++ conversation_rules, ?_⟩
    apply String.ext
    simp [build_system_prompt, user_details, h, optVal, String.data_append, List.append_assoc]
  · intro d q v hd hq hv
    have hne : ¬ d = [] := by
      rintro rfl
      simp [List.lookup] at hv
    simp only [personality_questions, List.mem_cons, List.not_mem_nil, or_false] at hq
    rcases hq with rfl | rfl | rfl | rfl | rfl
    · have hv' : d.lookup "energy" = some v := hv
      refine ⟨base_preamble ++ user_details p ++
          ("Personality profile (0–100% scale answers):\n" ++
            ("" ++ ("- " ++ "When meeting new people, how energized do you feel?" ++ " → "))),
        "\n" ++
          personality_line d ⟨"decision_style", "When making decisions, how much do you rely on logic (vs feelings)?"⟩ ++
          personality_line d ⟨"focus", "How much do you prefer practical details (vs big-picture ideas)?"⟩ ++
          personality_line d ⟨"structure", "How much do you prefer plans and structure (vs spontaneity)?"⟩ ++
          personality_line d ⟨"stress_response", "When stressed, how much do you seek social support (vs dealing with it alone)?"⟩ ++
          conversation_rules, ?_⟩
      apply String.ext
      simp [build_system_prompt, personality_section, hd, hne, personality_questions,
        List.foldl_cons, List.foldl_nil, personality_line, hv',
        String.data_append, List.append_assoc]
    · have hv' : d.lookup "decision_style" = some v := hv
      refine ⟨base_preamble ++ user_details p ++
          ("Personality profile (0–100% scale answers):\n" ++
            ("" ++ personality_line d ⟨"energy", "When meeting new people, how energized do you feel?"⟩ ++
              ("- " ++ "When making decisions, how much do you rely on logic (vs feelings)?" ++ " → "))),
        "\n" ++
          personality_line d ⟨"focus", "How much do you prefer practical details (vs big-picture ideas)?"⟩ ++
          personality_line d ⟨"structure", "How much do you prefer plans and structure (vs spontaneity)?"⟩ ++
          personality_line d ⟨"stress_response", "When stressed, how much do you seek social support (vs dealing with it alone)?"⟩ ++
          conversation_rules, ?_⟩
      apply String.ext
      simp [build_system_prompt, personality_section, hd, hne, personality_questions,
        List.foldl_cons, List.foldl_nil, personality_line, hv',
        String.data_append, List.append_assoc]
    · have hv' : d.lookup "focus" = some v := hv
      refine ⟨base_preamble ++ user_details p ++
          ("Personality profile (0–100% scale answers):\n" ++
            ("" ++ personality_line d ⟨"energy", "When meeting new people, how energized do you feel?"⟩ ++
              personality_line d ⟨"decision_style", "When making decisions, how much do you rely on logic (vs feelings)?"⟩ ++
              ("- " ++ "How much do you prefer practical details (vs big-picture ideas)?" ++ " → "))),
        "\n" ++
          personality_line d ⟨"structure", "How much do you prefer plans and structure (vs spontaneity)?"⟩ ++
          personality_line d ⟨"stress_response", "When stressed, how much do you seek social support (vs dealing with it alone)?"⟩ ++
          conversation_rules, ?_⟩
      apply String.ext
      simp [build_system_prompt, personality_section, hd, hne, personality_questions,
        List.foldl_cons, List.foldl_nil, personality_line, hv',
        String.data_append, List.append_assoc]
    · have hv' : d.lookup "structure" = some v := hv
      refine ⟨base_preamble ++ user_details p ++
          ("Personality profile (0–100% scale answers):\n" ++
            ("" ++ personality_line d ⟨"energy", "When meeting new people, how energized do you feel?"⟩ ++
              personality_line d ⟨"decision_style", "When making decisions, how much do you rely on logic (vs feelings)?"⟩ ++
              personality_line d ⟨"focus", "How much do you prefer practical details (vs big-picture ideas)?"⟩ ++
              ("- " ++ "How much do you prefer plans and structure (vs spontaneity)?" ++ " → "))),
        "\n" ++
          personality_line d ⟨"stress_response", "When stressed, how much do you seek social support (vs dealing with it alone)?"⟩ ++
          conversation_rules, ?_⟩
      apply String.ext
      simp [build_system_prompt, personality_section, hd, hne, personality_questions,
        List.foldl_cons, List.foldl_nil, personality_line, hv',
        String.data_append, List.append_assoc]
    · have hv' : d.lookup "stress_response" = some v := hv
      refine ⟨base_preamble ++ user_details p ++
          ("Personality profile (0–100% scale answers):\n" ++
            ("" ++ personality_line d ⟨"energy", "When meeting new people, how energized do you feel?"⟩ ++
              personality_line d ⟨"decision_style", "When making decisions, how much do you rely on logic (vs feelings)?"⟩ ++
              personality_line d ⟨"focus", "How much do you prefer practical details (vs big-picture ideas)?"⟩ ++
              personality_line d ⟨"structure", "How much do you prefer plans and structure (vs spontaneity)?"⟩ ++
              ("- " ++ "When stressed, how much do you seek social support (vs dealing with it alone)?" ++ " → "))),
        "\n" ++ conversation_rules, ?_⟩
      apply String.ext
      simp [build_system_prompt, personality_section, hd, hne, personality_questions,
        List.foldl_cons, List.foldl_nil, personality_line, hv',
        String.data_append, List.append_assoc]
  · intro h
    refine ⟨by simp [personality_section, h], ?_⟩
    apply String.ext
    simp [build_system_prompt, personality_section, h, String.data_append, List.append_assoc,
      show ("" : String).data = [] from rfl]

/-- C8 witness. -/
theorem build_system_prompt_contains_witness :
    (∃ s1 s2 : String, build_system_prompt demoProfile = s1 ++ "Alex" ++ s2) ∧
    (∃ s1 s2 : String, build_system_prompt demoProfile = s1 ++ "80%" ++ s2) ∧
    personality_section { demoProfile with personality_profile := none } = "" :=
  ⟨(build_system_prompt_contains demoProfile).1 "Alex" rfl,
   (build_system_prompt_contains demoProfile).2.2.2.2.1
     [("energy", "80%"), ("decision_style", "60%"), ("focus", "40%"),
      ("structure", "20%"), ("stress_response", "100%")]
     ⟨"energy", "When meeting new people, how energized do you feel?"⟩ "80%"
     rfl (by simp [personality_questions]) (by decide),
   ((build_system_prompt_contains { demoProfile with personality_profile := none }).2.2.2.2.2
     rfl).1⟩
